import Mathlib

/-!
Verification of the `locast2dvr` HTTP interface
(`src/locast2dvr/http/interface.py`).

The file shallowly embeds the request handlers built by `HTTPInterface`
(the Flask app that mimics a DVR device) and proves properties of them:
the `_stream` generator driving `/watch/<id>`, the `log_output` stderr
thread, the `watch` / `watch_m3u` handlers, `lineup_post`,
`lineup_status_json`, the station-rendering helpers used by `/lineup.m3u`
and `/lineup.json`, and the `/config` handler.

Python-specific semantics that matter here are embedded explicitly:
* `a or b` returns `a` iff `a` is truthy (`None` and `""` are falsy);
* an assignment to a variable inside a nested function (without
  `nonlocal`) binds a fresh local, leaving the enclosing function's
  variable of the same name untouched;
* a bare `except:` catches every exception, including `GeneratorExit`
  thrown into a generator when its consumer disconnects.
-/

set_option autoImplicit false

namespace Locast2dvr

/-! ## The `_stream` generator (interface.py lines 346-359)

`_stream` loops forever; each iteration evaluates
`yield ffmpeg_proc.stdout.read(config.bytes_per_read)` inside
`try: ... except: ...`.  One loop iteration is summarised by a
`ReadOutcome`: either the read returned a byte chunk (possibly empty —
`read` returns `b""` at EOF without raising) and the yield resumed
normally, or an exception was raised inside the `try` (a read failure,
or `GeneratorExit` delivered at the suspended `yield` when the client
disconnects).  The bare `except:` catches either kind. -/

inductive ReadOutcome where
  /-- The read returned `bytes` (empty at EOF) and the yield resumed. -/
  | chunk (bytes : List Nat)
  /-- An exception was raised inside the `try` block of this iteration. -/
  | exn
  deriving DecidableEq

def ReadOutcome.isExn : ReadOutcome → Bool
  | .chunk _ => false
  | .exn => true

/-- Calls made on the `ffmpeg_proc` subprocess handle. -/
inductive Action where
  | terminate
  | communicate
  deriving DecidableEq

/-- Observable result of running the `_stream` generator against a finite
prefix of read outcomes. -/
structure StreamResult where
  /-- Chunks yielded to the HTTP response, in order. -/
  yields : List (List Nat)
  /-- Subprocess-lifecycle calls made by the generator, in order. -/
  actions : List Action
  /-- Whether the `except:` block executed `stop_thread = True`.  Because
  `_stream` assigns `stop_thread` without `nonlocal`, this binds a variable
  local to `_stream`. -/
  stopThreadInnerSet : Bool
  /-- The `watch`-level `stop_thread` variable (initialised `False` at
  line 328), the one the log thread's `lambda: stop_thread` reads.  The
  assignment inside `_stream` does not touch it. -/
  stopThreadOuter : Bool
  /-- Whether the generator has returned (`break` executed).  `false` means
  it is still suspended at a `yield` (or looping). -/
  finished : Bool
  deriving DecidableEq

/-- Embedding of `_stream` (interface.py 346-359): process read outcomes in
order; a chunk is yielded and the loop continues; the first exception runs
`ffmpeg_proc.terminate()`, `ffmpeg_proc.communicate()`,
`stop_thread = True` (binding a `_stream`-local variable) and `break`s.
There is no other exit from the `while True` loop. -/
def _stream : List ReadOutcome → StreamResult
  | [] =>
    { yields := [], actions := [], stopThreadInnerSet := false,
      stopThreadOuter := false, finished := false }
  | .chunk b :: rest =>
    let r := _stream rest
    { r with yields := b :: r.yields }
  | .exn :: _ =>
    { yields := [], actions := [.terminate, .communicate],
      stopThreadInnerSet := true, stopThreadOuter := false, finished := true }

/-- A clean-EOF trace: the process exited normally, so every subsequent
`stdout.read` returns `b""` without raising. -/
def cleanEofTrace : List ReadOutcome :=
  [.chunk [], .chunk [], .chunk []]

theorem _stream_finished (t : List ReadOutcome) :
    (_stream t).finished = t.any ReadOutcome.isExn := by
  induction t with
  | nil => rfl
  | cons o rest ih =>
    cases o with
    | chunk b => simpa [_stream, ReadOutcome.isExn] using ih
    | exn => simp [_stream, ReadOutcome.isExn]

theorem _stream_actions (t : List ReadOutcome) :
    (_stream t).actions
      = if t.any ReadOutcome.isExn then [Action.terminate, Action.communicate]
        else [] := by
  induction t with
  | nil => rfl
  | cons o rest ih =>
    cases o with
    | chunk b => simpa [_stream, ReadOutcome.isExn] using ih
    | exn => simp [_stream, ReadOutcome.isExn]

theorem _stream_outer (t : List ReadOutcome) :
    (_stream t).stopThreadOuter = false := by
  induction t with
  | nil => rfl
  | cons o rest ih =>
    cases o with
    | chunk b => simpa [_stream] using ih
    | exn => rfl

theorem _stream_inner (t : List ReadOutcome) :
    (_stream t).stopThreadInnerSet = t.any ReadOutcome.isExn := by
  induction t with
  | nil => rfl
  | cons o rest ih =>
    cases o with
    | chunk b => simpa [_stream, ReadOutcome.isExn] using ih
    | exn => simp [_stream, ReadOutcome.isExn]

/-! ## The `log_output` stderr thread (interface.py lines 330-344)

`log_output(stderr, stop)` returns immediately unless `config.verbose > 0`;
otherwise it loops `while not stop():`, reading and logging stderr lines.
`stop` is `lambda: stop_thread`, closing over the `watch`-level variable. -/

/-- Stop callback handed to the thread: reads the `watch`-level
`stop_thread` variable (never the `_stream`-local one). -/
def threadStopSignal (r : StreamResult) : Bool :=
  r.stopThreadOuter

/-- Whether `log_output` has returned after `fuel` checks of its loop guard.
With `verbose = 0` the body is skipped and it returns at once; otherwise it
loops `while not stop():` where `stop` is the constant value of the
closed-over variable (nothing in the program rebinds that variable after
thread start). -/
def log_output_exits (verbose : Nat) (stop : Bool) : Nat → Bool
  | 0 => !decide (0 < verbose)
  | fuel + 1 =>
    if 0 < verbose then (if stop then true else log_output_exits verbose stop fuel)
    else true

theorem log_output_exits_false (fuel : Nat) :
    log_output_exits 1 false fuel = false := by
  induction fuel with
  | zero => rfl
  | succ n ih => simpa [log_output_exits] using ih

/-! ## Claims C1, C2, C4 -/

/-- C1 counterexample: on a clean-EOF trace (the transcoder exited
normally; every read returns `b""` without raising) the `_stream` sequence
does not terminate and neither `terminate()` nor `communicate()` is ever
called — contradicting the claim that on clean EOF the sequence terminates
and the process is reaped. -/
theorem c1_counterexample :
    (_stream cleanEofTrace).finished = false ∧
      (_stream cleanEofTrace).actions = [] := by
  constructor <;> rfl

/-- C1 (amended): the `_stream` sequence terminates, and terminates and
reaps the transcoder (`terminate()` then `communicate()`), exactly when
some read iteration raises; on clean EOF (reads returning empty chunks
without raising) the loop never exits and no cleanup runs. -/
theorem c1_cleanup_only_on_exception (t : List ReadOutcome) :
    (_stream t).finished = t.any ReadOutcome.isExn ∧
      (_stream t).actions
        = (if t.any ReadOutcome.isExn then [Action.terminate, Action.communicate]
           else []) :=
  ⟨_stream_finished t, _stream_actions t⟩

/-- C2: on any trace containing a read error (including `GeneratorExit`
from a client disconnect, caught by the bare `except:`), the `_stream`
sequence terminates, and `terminate()` followed by `communicate()` runs
before control returns — no orphaned transcoder process survives the error
path. -/
theorem c2_error_path_cleanup (t : List ReadOutcome)
    (h : t.any ReadOutcome.isExn = true) :
    (_stream t).finished = true ∧
      (_stream t).actions = [Action.terminate, Action.communicate] := by
  refine ⟨?_, ?_⟩
  · rw [_stream_finished, h]
  · rw [_stream_actions, h]
    rfl

theorem c2_error_path_cleanup_witness :
    (_stream [ReadOutcome.exn]).finished = true ∧
      (_stream [ReadOutcome.exn]).actions = [Action.terminate, Action.communicate] :=
  c2_error_path_cleanup [ReadOutcome.exn] (by decide)

/-- C4 (code bug, evaluated at the failing input): after a client
disconnect (`[.exn]`), the cleanup path has run — the process was
terminated and reaped and `stop_thread = True` executed — yet the variable
the log thread's `lambda: stop_thread` reads is still `False` (the
assignment bound a `_stream`-local), so with `verbose = 1` the thread's
`while not stop():` loop never exits, however long it runs: the stop
signal is never observed and the thread leaks. -/
theorem c4_stop_flag_never_observed (fuel : Nat) :
    (_stream [ReadOutcome.exn]).actions = [Action.terminate, Action.communicate] ∧
      (_stream [ReadOutcome.exn]).stopThreadInnerSet = true ∧
      threadStopSignal (_stream [ReadOutcome.exn]) = false ∧
      log_output_exits 1 (threadStopSignal (_stream [ReadOutcome.exn])) fuel = false := by
  refine ⟨rfl, rfl, rfl, ?_⟩
  have h : threadStopSignal (_stream [ReadOutcome.exn]) = false := rfl
  rw [h]
  exact log_output_exits_false fuel

/-! ## The `watch` and `watch_m3u` handlers (interface.py lines 289-361)

`locast_service.get_station_stream_uri(channel_id)` either returns a URI
or raises (unknown channel, upstream unavailable); it is embedded as an
`Except Unit String` value.  Both handlers call it first, so a failure
propagates out of the handler before anything else happens. -/

/-- Argument list built by `watch` (interface.py 322-323). -/
def ffmpeg_cmd (ffmpeg uri : String) : List String :=
  [ffmpeg, "-i", uri, "-codec", "copy", "-f", "mpegts", "pipe:1"]

/-- Observable outcome of one call to the `watch` handler. -/
structure WatchOutcome where
  /-- The handler returned a `Response` (as opposed to raising). -/
  returned : Bool
  /-- `subprocess.Popen` was called (a transcoder process was spawned). -/
  processStarted : Bool
  /-- The `log_output` thread was started. -/
  threadStarted : Bool
  /-- Command line passed to `Popen`, when a process was spawned. -/
  cmd : Option (List String)
  /-- Content type of the streaming response (the source string is missing
  its closing double quote; kept verbatim). -/
  contentType : Option String
  deriving DecidableEq

/-- Embedding of `watch` (interface.py 303-361): resolve the stream URI for
the channel — on failure the exception propagates and nothing is started;
on success build `ffmpeg_cmd`, spawn the process, start the log thread and
return the streaming `Response`.  The handler body never compares the
number of active sessions against `config.tuner_count`; both numbers are
parameters here only so that their irrelevance is statable. -/
def watch (resolve : Except Unit String) (ffmpeg : String)
    (tuner_count activeStreams : Nat) : WatchOutcome :=
  match resolve with
  | .error _ =>
    { returned := false, processStarted := false, threadStarted := false,
      cmd := none, contentType := none }
  | .ok uri =>
    { returned := true, processStarted := true, threadStarted := true,
      cmd := some (ffmpeg_cmd ffmpeg uri),
      contentType := some "video/mpeg; codecs=\"avc1.4D401E" }

/-- Observable outcome of one call to the `watch_m3u` handler. -/
structure M3uWatchOutcome where
  /-- The handler returned (as opposed to raising). -/
  returned : Bool
  /-- Redirect target and status code, on success. -/
  redirectTo : Option (String × Nat)
  /-- `watch_m3u` never spawns a process. -/
  processStarted : Bool
  deriving DecidableEq

/-- Embedding of `watch_m3u` (interface.py 289-301): resolve the stream URI
and redirect to it with code 302; on resolution failure the exception
propagates.  No subprocess is involved in either case. -/
def watch_m3u (resolve : Except Unit String) : M3uWatchOutcome :=
  match resolve with
  | .error _ => { returned := false, redirectTo := none, processStarted := false }
  | .ok uri => { returned := true, redirectTo := some (uri, 302), processStarted := false }

/-- Events in a run of the server, for counting concurrent direct-stream
sessions: a `/watch/<id>` request (with the resolver outcome it sees), or
the end of one active session. -/
inductive SessionEvent where
  | request (resolve : Except Unit String)
  | disconnect

/-- Number of active direct-stream sessions after one event: a request adds
a session exactly when `watch` spawns a process (which, per the source,
ignores `tuner_count` and the current count); a disconnect removes one. -/
def stepSessions (tuner_count : Nat) (active : Nat) : SessionEvent → Nat
  | .request r =>
    if (watch r "ffmpeg" tuner_count active).processStarted then active + 1 else active
  | .disconnect => active - 1

/-- Active sessions after a list of events, starting from zero. -/
def runSessions (tuner_count : Nat) (events : List SessionEvent) : Nat :=
  events.foldl (stepSessions tuner_count) 0

/-! ## Claims C3, C6 -/

/-- C3 counterexample: with `tuner_count = 1`, two successfully resolved
`/watch` requests with no intervening disconnect leave two transcoder
sessions streaming concurrently — more than the configured tuner count, so
no admission check is enforced at the handler entry point. -/
theorem c3_counterexample :
    runSessions 1
        [SessionEvent.request (Except.ok "http://u"),
         SessionEvent.request (Except.ok "http://u")] = 2 ∧
      ¬(2 ≤ 1) := by
  exact ⟨rfl, by decide⟩

/-- C3 (amended): the `watch` handler performs no tuner-count admission
check — its outcome is identical for every tuner count and every number of
already-active sessions, and every successfully resolved request spawns a
transcoder process, so the number of concurrent direct-stream sessions is
not bounded by `tuner_count`. -/
theorem c3_no_admission_check (uri ffmpeg : String) (tc₁ a₁ tc₂ a₂ : Nat) :
    watch (Except.ok uri) ffmpeg tc₁ a₁ = watch (Except.ok uri) ffmpeg tc₂ a₂ ∧
      (watch (Except.ok uri) ffmpeg tc₁ a₁).processStarted = true :=
  ⟨rfl, rfl⟩

/-- C6: when `get_station_stream_uri` fails (unknown channel or upstream
unavailable), both `watch` and `watch_m3u` terminate by propagating the
error — neither returns a response — and no transcoder process is ever
started. -/
theorem c6_resolve_failure_no_process (ffmpeg : String) (tc a : Nat) :
    (watch (Except.error ()) ffmpeg tc a).processStarted = false ∧
      (watch (Except.error ()) ffmpeg tc a).returned = false ∧
      (watch (Except.error ()) ffmpeg tc a).threadStarted = false ∧
      (watch_m3u (Except.error ())).processStarted = false ∧
      (watch_m3u (Except.error ())).returned = false :=
  ⟨rfl, rfl, rfl, rfl, rfl⟩

/-! ## `lineup_status_json` and `lineup_post` (interface.py lines 69-89, 277-287) -/

/-- Python `str()` as the f-string `f"\x7bscan\x7d ..."` applies it to the
result of `request.args.get("scan")`: a missing parameter is `None` and
renders as the four characters `None`. -/
def pyStr : Option String → String
  | none => "None"
  | some s => s

/-- The two disjoint response shapes of `/lineup_status.json`. -/
inductive LineupStatus where
  | scanning (scanInProgress : Bool) (progress found : Nat)
  | idle (scanInProgress scanPossible : Bool) (source : String) (sourceList : List String)
  deriving DecidableEq

/-- Embedding of `lineup_status_json` (interface.py 69-89): the shape is
chosen by the `station_scan` value the handler closes over. -/
def lineup_status_json (station_scan : Bool) : LineupStatus :=
  if station_scan then .scanning true 50 5
  else .idle false true "Antenna" ["Antenna"]

/-- App-level state closed over by the handlers: the `station_scan`
argument bound when `HTTPInterface` created the app. -/
structure AppState where
  station_scan : Bool
  deriving DecidableEq

/-- Embedding of `lineup_post` (interface.py 277-287).  On `scan=start` the
handler executes `station_scan = True`, fetches the stations (a side effect
with no bearing on app state) and `station_scan = False`; both assignments
bind a variable local to `lineup_post` (no `nonlocal`), so the app-level
`station_scan` read by `lineup_status_json` is untouched, which the
returned state records.  It answers `('', 204)`; any other `scan` value
gets `400` with the value echoed through the f-string. -/
def lineup_post (scan : Option String) (st : AppState) : (String × Nat) × AppState :=
  if scan = some "start" then
    let _station_scan_local := true
    let _station_scan_local := false
    (("", 204), st)
  else ((pyStr scan ++ " is not a valid scan command", 400), st)

/-! ## Claims C5, C7, C10 -/

/-- C5: handling any sequence of `/lineup.post` requests (with any `scan`
values, `start` included) leaves the state read by `/lineup_status.json`
unchanged: the response shape of `lineup_status_json` is determined solely
by the `station_scan` value supplied at app creation. -/
theorem c5_scan_state_unchanged (st : AppState) (reqs : List (Option String)) :
    lineup_status_json
        (reqs.foldl (fun s sc => (lineup_post sc s).2) st).station_scan
      = lineup_status_json st.station_scan := by
  have hfold : reqs.foldl (fun s sc => (lineup_post sc s).2) st = st := by
    induction reqs generalizing st with
    | nil => rfl
    | cons r rest ih =>
      have hstep : (lineup_post r st).2 = st := by
        unfold lineup_post
        by_cases h : r = some "start" <;> simp [h]
      rw [List.foldl_cons, hstep, ih]
  rw [hfold]

/-- C7: `lineup_post` answers `scan=start` with status 204 and an empty
body, and any other supplied value `v` with status 400 and the body
`v ++ " is not a valid scan command"`, echoing the invalid value. -/
theorem c7_lineup_post_responses (st : AppState) (v : String) :
    (lineup_post (some "start") st).1 = ("", 204) ∧
      (v ≠ "start" →
        (lineup_post (some v) st).1 = (v ++ " is not a valid scan command", 400)) := by
  constructor
  · rfl
  · intro hv
    unfold lineup_post
    simp [pyStr, hv]

theorem c7_lineup_post_responses_witness :
    (lineup_post (some "start") ⟨false⟩).1 = ("", 204) ∧
      (lineup_post (some "bogus") ⟨false⟩).1 = ("bogus is not a valid scan command", 400) :=
  ⟨(c7_lineup_post_responses ⟨false⟩ "bogus").1,
   (c7_lineup_post_responses ⟨false⟩ "bogus").2 (by decide)⟩

/-- C10: a `/lineup.post` request with no `scan` parameter at all reaches
the handler as `None`; the f-string renders it, giving status 400 with the
body `None is not a valid scan command`. -/
theorem c10_missing_scan_param (st : AppState) :
    (lineup_post none st).1 = ("None is not a valid scan command", 400) := rfl

/-! ## Station rendering: `m3u` and `lineup_json` (interface.py lines 91-147)

Python `a or b` evaluates to `a` iff `a` is truthy; for the optional
string fields read with `station.get(...)`, both `None` (absent key) and
the empty string are falsy. -/

/-- Python `a or b` where both operands are optional strings. -/
def pyOr (a b : Option String) : Option String :=
  match a with
  | none => b
  | some s => if s = "" then b else some s

/-- Python `a or b` where `b` comes from `station["channel"]` (a required
key, hence a plain string). -/
def pyOrD (a : Option String) (b : String) : String :=
  match a with
  | none => b
  | some s => if s = "" then b else s

/-- Match of the anchored regex `\d+\.\d+ (.+)` against a character list:
one or more digits, a dot, one or more digits, a space, then the capture
group — the maximal nonempty run of non-newline characters. -/
def nameOnlyMatch (cs : List Char) : Option (List Char) :=
  let p1 := cs.span Char.isDigit
  match p1.1, p1.2 with
  | _ :: _, '.' :: r2 =>
    let p2 := r2.span Char.isDigit
    match p2.1, p2.2 with
    | _ :: _, ' ' :: rest =>
      let captured := rest.takeWhile (fun c => c ≠ '\n')
      if captured.isEmpty then none else some captured
    | _, _ => none
  | _, _ => none

/-- Embedding of `name_only` (interface.py 120-134): the capture group of
`re.match` when the pattern matches, the original value otherwise. -/
def name_only (value : String) : String :=
  match nameOnlyMatch value.toList with
  | some g => String.mk g
  | none => value

/-- One station as read by the rendering handlers.  Fields read with
`station.get(...)` are optional; `channel`, `city` and `id` are indexed
directly and thus required. -/
structure Station where
  id : Nat
  name : Option String
  callSign : Option String
  callSign_remapped : Option String
  channel : String
  channel_remapped : Option String
  city : String
  logoUrl : Option String
  logo226Url : Option String
  deriving DecidableEq

/-- The value fed to `name_only` for the m3u callsign (interface.py
101-102): `station.get("callSign_remapped") or station.get("callSign") or
station.get("name")`.  `none` models the chain being falsy, in which case
`re.match` would raise on a non-string. -/
def m3uCallsignValue (s : Station) : Option String :=
  pyOr s.callSign_remapped (pyOr s.callSign s.name)

/-- Callsign as rendered in the m3u output: `name_only` of the chain. -/
def m3uCallsign (s : Station) : Option String :=
  (m3uCallsignValue s).map name_only

/-- Channel as rendered in the m3u output (interface.py 105):
`station.get("channel_remapped") or station["channel"]`. -/
def m3uChannel (s : Station) : String :=
  pyOrD s.channel_remapped s.channel

/-- `GuideNumber` in the `/lineup.json` output (interface.py 144):
`station.get('channel_remapped') or station['channel']`. -/
def lineup_json_guideNumber (s : Station) : String :=
  pyOrD s.channel_remapped s.channel

/-- Logo URL as rendered (interface.py 104). -/
def m3uLogo (s : Station) : Option String :=
  pyOr s.logoUrl s.logo226Url

/-- `group-title` value (interface.py 106-108): `";".join(filter(None,
[city, networks]))`, where `filter(None, ...)` drops falsy entries. -/
def m3uGroups (city networks : String) : String :=
  String.intercalate ";" (List.filter (fun x => x ≠ "") [city, networks])

/-- The `#EXTINF` line the m3u loop appends for one station (interface.py
113-117), `none` when the callsign chain is falsy and the handler would
raise.  The f-string renders a `None` logo as the text `None`. -/
def m3uExtinf (multiplex : Bool) (s : Station) : Option String :=
  (m3uCallsign s).map fun callsign =>
    let networks :=
      if callsign ∈ ["ABC", "CBS", "NBC", "FOX", "CW", "PBS"] then "Network" else ""
    let tvg_name :=
      if multiplex then callsign ++ " (" ++ s.city ++ ")" else callsign
    let line :=
      "#EXTINF:-1 tvg-id=\"channel." ++ toString s.id ++ "\" tvg-name=\"" ++ tvg_name
        ++ "\" tvg-logo=\"" ++ pyStr (m3uLogo s) ++ "\" tvg-chno=\"" ++ m3uChannel s
        ++ "\" group-title=\"" ++ m3uGroups s.city networks ++ "\", " ++ callsign
    if multiplex then line ++ " (" ++ s.city ++ ")" else line

/-! ## Claim C8 -/

/-- Station whose snapshot contains remapped fields that are empty
strings: Python `or` treats them as falsy and falls back to the raw
values. -/
def emptyRemapStation : Station :=
  { id := 7, name := some "NAME7", callSign := some "RAW",
    callSign_remapped := some "", channel := "2.1", channel_remapped := some "",
    city := "CityX", logoUrl := none, logo226Url := none }

/-- C8 counterexample: this station's snapshot contains a remapped
callsign and a remapped channel (both present, equal to `""`), yet the m3u
callsign is the raw `RAW`, not the remapped value, and both the m3u
channel and the lineup.json `GuideNumber` are the raw `2.1`, not the
remapped value — the raw value is used although a remapped one is
present. -/
theorem c8_counterexample :
    emptyRemapStation.callSign_remapped = some "" ∧
      emptyRemapStation.channel_remapped = some "" ∧
      m3uCallsign emptyRemapStation = some "RAW" ∧
      m3uCallsign emptyRemapStation
        ≠ Option.map name_only emptyRemapStation.callSign_remapped ∧
      m3uChannel emptyRemapStation = "2.1" ∧
      lineup_json_guideNumber emptyRemapStation = "2.1" ∧
      lineup_json_guideNumber emptyRemapStation ≠ "" := by
  refine ⟨rfl, rfl, rfl, by decide, rfl, rfl, by decide⟩

/-- C8 (amended): for every station whose remapped callsign is present and
non-empty (truthy), the m3u output uses the remapped callsign (through
`name_only`); for every station whose remapped channel is present and
non-empty, the m3u channel and the lineup.json `GuideNumber` are exactly
the remapped channel.  A present but empty remapped value is falsy for
Python `or` and falls back to the raw value. -/
theorem c8_remapped_precedence (s : Station) (v w : String) :
    (s.callSign_remapped = some v → v ≠ "" →
        m3uCallsign s = some (name_only v)) ∧
      (s.channel_remapped = some w → w ≠ "" →
        m3uChannel s = w ∧ lineup_json_guideNumber s = w) := by
  constructor
  · intro h hv
    simp [m3uCallsign, m3uCallsignValue, pyOr, h, hv]
  · intro h hw
    constructor <;> simp [m3uChannel, lineup_json_guideNumber, pyOrD, h, hw]

/-- Station with truthy remapped callsign and channel. -/
def remappedStation : Station :=
  { id := 9, name := some "N", callSign := some "4.1 OLD",
    callSign_remapped := some "5.2 CBS", channel := "4.1",
    channel_remapped := some "5.2", city := "CityY",
    logoUrl := some "http://logo", logo226Url := none }

theorem c8_remapped_precedence_witness :
    m3uCallsign remappedStation = some (name_only "5.2 CBS") ∧
      (m3uChannel remappedStation = "5.2" ∧
        lineup_json_guideNumber remappedStation = "5.2") :=
  ⟨(c8_remapped_precedence remappedStation "5.2 CBS" "5.2").1 rfl (by decide),
   (c8_remapped_precedence remappedStation "5.2 CBS" "5.2").2 rfl (by decide)⟩

/-! ## The `/config` handler `output_config` (interface.py lines 158-168)

`dict(config)` snapshots the configuration as an insertion-ordered mapping
of string keys to string values, embedded as an association list without
duplicate keys; `c["password"] = "*********"` overwrites the entry in
place when the key is present, else appends it. -/

/-- Configuration snapshot: ordered key-value pairs. -/
abbrev Config := List (String × String)

/-- Python `d[k] = v`: overwrite the entry in place when `k` is present
(insertion order preserved), append otherwise. -/
def dictSet (d : Config) (k v : String) : Config :=
  if d.any (fun kv => kv.1 = k) then
    d.map (fun kv => if kv.1 = k then (k, v) else kv)
  else d ++ [(k, v)]

/-- Embedding of `output_config` (interface.py 158-168): copy the config
and overwrite the `password` entry with the fixed mask, then serialise. -/
def output_config (config : Config) : Config :=
  dictSet config "password" "*********"

/-- JSON-style rendering of the response body: the keys and values in
order.  Quoting and punctuation aside, this is the string `jsonify`
sends. -/
def renderConfig (c : Config) : String :=
  String.intercalate ", " (c.map fun kv => "\"" ++ kv.1 ++ "\": \"" ++ kv.2 ++ "\"")

/-- Whether `needle` occurs at the head of `hay`. -/
def startsWithChars : List Char → List Char → Bool
  | _, [] => true
  | [], _ :: _ => false
  | h :: hs, n :: ns => h = n && startsWithChars hs ns

/-- Whether `needle` occurs contiguously anywhere in `hay`. -/
def containsChars (needle : List Char) : List Char → Bool
  | [] => needle.isEmpty
  | c :: rest => startsWithChars (c :: rest) needle || containsChars needle rest

/-- Substring test on strings. -/
def strContains (hay needle : String) : Bool :=
  containsChars needle.toList hay.toList

/-- Python `d[k]` / `d.get(k)` on the association list: value of the first
entry whose key is `k`. -/
def dictGet (k : String) : Config → Option String
  | [] => none
  | kv :: rest => if kv.1 = k then some kv.2 else dictGet k rest

theorem dictSet_of_present (d : Config) (k v : String)
    (h : (d.any fun kv => kv.1 = k) = true) :
    dictSet d k v = d.map (fun kv => if kv.1 = k then (k, v) else kv) := by
  unfold dictSet
  rw [if_pos h]

theorem dictSet_of_absent (d : Config) (k v : String)
    (h : ¬(d.any fun kv => kv.1 = k) = true) :
    dictSet d k v = d ++ [(k, v)] := by
  unfold dictSet
  rw [if_neg h]

theorem dictSet_dictSet (d : Config) (k v₁ v₂ : String) :
    dictSet (dictSet d k v₁) k v₂ = dictSet d k v₂ := by
  by_cases h : (d.any fun kv => kv.1 = k) = true
  · have hpres : ((dictSet d k v₁).any fun kv => kv.1 = k) = true := by
      rw [dictSet_of_present d k v₁ h, List.any_eq_true]
      obtain ⟨kv, hmem, hk⟩ := List.any_eq_true.mp h
      have hk2 : kv.1 = k := of_decide_eq_true hk
      refine ⟨(k, v₁), List.mem_map.mpr ⟨kv, hmem, ?_⟩, by simp⟩
      rw [if_pos hk2]
    rw [dictSet_of_present _ k v₂ hpres, dictSet_of_present d k v₁ h,
      dictSet_of_present d k v₂ h, List.map_map]
    apply List.map_congr_left
    intro kv _
    by_cases hk : kv.1 = k
    · simp [Function.comp, hk]
    · simp [Function.comp, hk]
  · have hpres : ((dictSet d k v₁).any fun kv => kv.1 = k) = true := by
      rw [dictSet_of_absent d k v₁ h, List.any_eq_true]
      exact ⟨(k, v₁), by simp⟩
    rw [dictSet_of_present _ k v₂ hpres, dictSet_of_absent d k v₁ h,
      dictSet_of_absent d k v₂ h, List.map_append]
    have hmap : (d.map fun kv => if kv.1 = k then (k, v₂) else kv) = d := by
      conv_rhs => rw [show d = d.map id from (List.map_id d).symm]
      apply List.map_congr_left
      intro kv hmem
      have hk : ¬kv.1 = k := fun hkk =>
        h (List.any_eq_true.mpr ⟨kv, hmem, decide_eq_true hkk⟩)
      simp [hk]
    rw [hmap]
    simp

theorem dictGet_map_overwrite (d : Config) (k v : String)
    (h : (d.any fun kv => kv.1 = k) = true) :
    dictGet k (d.map fun kv => if kv.1 = k then (k, v) else kv) = some v := by
  induction d with
  | nil => simp at h
  | cons kv rest ih =>
    by_cases hk : kv.1 = k
    · simp [dictGet, hk]
    · have hrest : (rest.any fun kv2 => kv2.1 = k) = true := by
        obtain ⟨kv2, hmem, hk2⟩ := List.any_eq_true.mp h
        rcases List.mem_cons.mp hmem with heq | hmem2
        · exact absurd (of_decide_eq_true (heq ▸ hk2)) hk
        · exact List.any_eq_true.mpr ⟨kv2, hmem2, hk2⟩
      simpa [dictGet, hk] using ih hrest

theorem dictGet_append_absent (d : Config) (k v : String)
    (h : ¬(d.any fun kv => kv.1 = k) = true) :
    dictGet k (d ++ [(k, v)]) = some v := by
  induction d with
  | nil => simp [dictGet]
  | cons kv rest ih =>
    have hk : ¬kv.1 = k := fun hkk =>
      h (List.any_eq_true.mpr ⟨kv, List.mem_cons_self kv rest, decide_eq_true hkk⟩)
    have hrest : ¬(rest.any fun kv2 => kv2.1 = k) = true := by
      intro hany
      obtain ⟨kv2, hmem, hk2⟩ := List.any_eq_true.mp hany
      exact h (List.any_eq_true.mpr ⟨kv2, List.mem_cons_of_mem kv hmem, hk2⟩)
    simpa [dictGet, hk] using ih hrest

theorem dictGet_dictSet (d : Config) (k v : String) :
    dictGet k (dictSet d k v) = some v := by
  by_cases h : (d.any fun kv => kv.1 = k) = true
  · rw [dictSet_of_present d k v h]
    exact dictGet_map_overwrite d k v h
  · rw [dictSet_of_absent d k v h]
    exact dictGet_append_absent d k v h

/-! ## Claim C9 -/

/-- Configuration in which the password happens to equal the username. -/
def collidingConfig : Config :=
  [("username", "hunter2"), ("password", "hunter2")]

/-- C9 counterexample: with the password configured as `hunter2` — which
also happens to be the username — the rendered `/config` body does contain
the literal configured password, even though the `password` field itself
is masked: masking one field does not purge the value from the rest of the
document. -/
theorem c9_counterexample :
    dictGet "password" collidingConfig = some "hunter2" ∧
      dictGet "password" (output_config collidingConfig) = some "*********" ∧
      strContains (renderConfig (output_config collidingConfig)) "hunter2" = true := by
  refine ⟨rfl, rfl, by decide⟩

/-- C9 (amended): the `password` field of the `/config` response is always
the fixed mask, and two runs whose configurations differ only in the
configured password produce identical `/config` responses; the literal
password value can still appear in the body when some other configuration
field happens to contain it. -/
theorem c9_password_masked (cfg : Config) (p₁ p₂ : String) :
    dictGet "password" (output_config cfg) = some "*********" ∧
      output_config (dictSet cfg "password" p₁)
        = output_config (dictSet cfg "password" p₂) := by
  constructor
  · exact dictGet_dictSet cfg "password" "*********"
  · unfold output_config
    rw [dictSet_dictSet, dictSet_dictSet]

end Locast2dvr
